import Mathlib

/-!
Verification of the codegen-server completion subsystem.

The development shallowly embeds the Python sources of the service:
`services.py` (the fill-in-middle context-budget allocator and response
sanitizer), `views.py` (the HTTP views and their error classification),
`model_providers.py` (the provider adapters and model catalog) and
`prompt_templates.py` (the chat-path prompt builder).

Python strings are modelled as lists of characters (`Str`), Python dicts
with optional keys as structures with `Option` fields, raised exceptions
as explicit error values, and the network as an oracle argument.
-/

set_option linter.unusedVariables false

/-- Python strings, modelled as lists of unicode characters. -/
abbrev Str := List Char

/-- Python slice `s[:n]` for a non-negative `n`. -/
def pyTake (n : Nat) (s : Str) : Str := s.take n

/-- Python slice `s[-n:]` for a positive `n`: the last `n` characters
(the whole string when it is shorter than `n`). -/
def pyLastN (n : Nat) (s : Str) : Str := s.drop (s.length - n)

/-- ASCII whitespace, as recognised by Python's `str.strip()` on the
character sets this service handles. -/
def pyIsSpace (c : Char) : Bool :=
  c = ' ' || c = '\t' || c = '\n' || c = '\r' || c = Char.ofNat 11 || c = Char.ofNat 12

/-- Python `str.strip()`: drop leading and trailing whitespace. -/
def pyStrip (s : Str) : Str :=
  ((s.dropWhile pyIsSpace).reverse.dropWhile pyIsSpace).reverse

/-- Python `'\n'.join(parts)`. -/
def joinNL : List Str → Str
  | [] => []
  | [p] => p
  | p :: q :: rest => p ++ '\n' :: joinNL (q :: rest)

/-! ## Constants of `services.py` -/

def MAX_TOTAL_LENGTH : Nat := 8000

def MAX_INCLUDES : Nat := 10

def MAX_FUNCTIONS : Nat := 5

def MAX_PROMPT_LENGTH : Nat := 4000

/-! ## The context-budget allocator (`services.py`, `call_fim_api`, steps 1-3) -/

/-- An entry of `other_functions`: a Python dict with optional string keys
`name` and `signature`. -/
structure FuncEntry where
  name : Option Str
  signature : Option Str
deriving DecidableEq, Repr

/-- The synthetic name `function_<i>` assigned during validation. -/
def functionName (i : Nat) : Str := "function_".data ++ Nat.toDigits 10 i

/-- The validation step of `call_fim_api`: every entry of `other_functions`
missing a `name` key has `name = function_<index>` written into it in place.
The returned list is the caller's list as it stands after the call. -/
def assignNames (funcs : List FuncEntry) : List FuncEntry :=
  funcs.enum.map fun p =>
    match p.2.name with
    | some _ => p.2
    | none => { p.2 with name := some (functionName p.1) }

/-- `func.get('signature', func.get('name', ''))`. -/
def getSig (f : FuncEntry) : Str :=
  match f.signature with
  | some s => s
  | none =>
    match f.name with
    | some n => n
    | none => []

def SEPARATOR : Str := "==========".data

/-- The cleaned include lines: first `MAX_INCLUDES` entries, each stripped,
empties dropped. -/
def cleanedIncludes (includes : List Str) : List Str :=
  ((includes.take MAX_INCLUDES).map pyStrip).filter (fun s => s ≠ [])

/-- The commented function-signature lines: first `MAX_FUNCTIONS` entries,
`signature` preferred over `name`, entries yielding nothing skipped. -/
def functionLines (funcs : List FuncEntry) : List Str :=
  (funcs.take MAX_FUNCTIONS).filterMap fun f =>
    if getSig f = [] then none else some ("//   ".data ++ getSig f)

/-- `prompt_parts` as assembled by step 2 of `call_fim_api`, before joining. -/
def promptParts (includes : List Str) (funcs : List FuncEntry) (trimmedPrompt : Str) : List Str :=
  let parts1 : List Str := if includes ≠ [] then cleanedIncludes includes else []
  let parts2 : List Str :=
    if parts1 ≠ [] ∧ funcs ≠ [] then parts1 ++ [[], SEPARATOR, []] else parts1
  let parts3 : List Str :=
    if funcs ≠ [] then
      parts2 ++ ("// Available functions in this file:".data :: functionLines funcs)
    else parts2
  let parts4 : List Str :=
    if parts3 ≠ [] ∧ (includes ≠ [] ∨ funcs ≠ []) then parts3 ++ [[], SEPARATOR, []] else parts3
  parts4 ++ [trimmedPrompt]

/-- Which arm of the length-adjustment step (step 3) produced the result. -/
inductive Branch where
  | within
  | shrinkSuffix
  | shrinkPrompt
  | fallback
deriving DecidableEq, Repr

/-- The allocator's output: the prompt/suffix pair sent to the FIM API. -/
structure BudgetedPrompt where
  fullPrompt : Str
  suffix : Str
deriving DecidableEq, Repr

/-- Step 3 of `call_fim_api`: the length check and adjustment, instrumented
with the branch taken. -/
def enforceBudget (fullPrompt : Str) (sfx : Str) (trimmedPrompt : Str) : BudgetedPrompt × Branch :=
  if fullPrompt.length + sfx.length > MAX_TOTAL_LENGTH then
    let maxSuffixLength : Int := (MAX_TOTAL_LENGTH : Int) - fullPrompt.length
    if maxSuffixLength > 100 then
      (⟨fullPrompt, pyTake maxSuffixLength.toNat sfx⟩, Branch.shrinkSuffix)
    else
      let availableForPrompt : Int := (MAX_TOTAL_LENGTH : Int) - 200
      if availableForPrompt > 0 then
        (⟨pyLastN availableForPrompt.toNat fullPrompt, pyTake 200 sfx⟩, Branch.shrinkPrompt)
      else
        (⟨pyLastN 500 trimmedPrompt, pyTake 500 sfx⟩, Branch.fallback)
  else (⟨fullPrompt, sfx⟩, Branch.within)

/-- Steps 1-3 of `call_fim_api`: validation, prompt assembly and budget
enforcement (the pure part of the function, up to the network call). -/
def call_fim_allocate (prompt sfx : Str) (includes : List Str)
    (other_functions : List FuncEntry) : BudgetedPrompt × Branch :=
  let funcs := assignNames other_functions
  let trimmedPrompt :=
    if prompt.length > MAX_PROMPT_LENGTH then pyTake MAX_PROMPT_LENGTH prompt else prompt
  let fullPrompt := joinNL (promptParts includes funcs trimmedPrompt)
  enforceBudget fullPrompt sfx trimmedPrompt

/-! ## Response parsing and sanitising (`services.py`, `call_fim_api`, steps 4-5) -/

/-- Python `s.replace(old, rep)` with fuel (the fuel is the length of the
scanned string, which strictly bounds the recursion). -/
def pyReplaceAux (old rep : Str) : Nat → Str → Str
  | _, [] => []
  | 0, s => s
  | fuel + 1, c :: rest =>
    if old ≠ [] ∧ old.isPrefixOf (c :: rest) then
      rep ++ pyReplaceAux old rep fuel ((c :: rest).drop old.length)
    else c :: pyReplaceAux old rep fuel rest

/-- Python `s.replace(old, rep)`: replace non-overlapping occurrences left
to right. -/
def pyReplace (old rep s : Str) : Str := pyReplaceAux old rep s.length s

/-- The canonical suggestion: the sanitised completion text plus its short
display label. -/
structure Suggestion where
  text : Str
  label : Str
deriving DecidableEq, Repr

/-- The label derivation:
`text[:30].replace('\n', ' ') + '...' if len(text) > 30 else text`. -/
def deriveLabel (t : Str) : Str :=
  if t.length > 30 then
    (pyTake 30 t).map (fun c => if c = '\n' then ' ' else c) ++ "...".data
  else t

/-- The fence-stripping pipeline of step 5: strip, remove the `cpp`,
`python`, `c` and unlabeled code-fence markers, strip again. -/
def cleanFences (raw : Str) : Str :=
  let text0 := pyStrip raw
  let text1 := pyReplace "```cpp".data [] text0
  let text2 := pyReplace "```python".data [] text1
  let text3 := pyReplace "```c".data [] text2
  pyStrip (pyReplace "```".data [] text3)

/-- Step 5 of `call_fim_api`: strip, remove code-fence markers, drop empty
results, cap to 500 characters and derive the label. -/
def sanitize_suggestion (raw : Str) : Option Suggestion :=
  let text4 := cleanFences raw
  if text4 = [] then none
  else
    let text5 := if text4.length > 500 then pyTake 500 text4 else text4
    some ⟨text5, deriveLabel text5⟩

/-- A choice of the FIM response body: a dict with an optional `text` key. -/
structure FimChoice where
  text : Option Str
deriving DecidableEq, Repr

/-- The parsed FIM response body: optional `choices` key, and the
`error.message` field read on non-200 statuses. -/
structure FimBody where
  choices : Option (List FimChoice)
  errorMessage : Option Str
deriving DecidableEq, Repr

/-- The outcome of the single upstream HTTP POST of `call_fim_api`:
a response (with `none` body when the body is not parseable JSON), or one
of the transport-level failures raised by the HTTP library. -/
inductive FimUpstream where
  | response (status : Nat) (body : Option FimBody)
  | timeout
  | connectionError
  | requestError (msg : Str)
deriving DecidableEq, Repr

/-- The outcome of `call_fim_api` as seen by the caller: a returned
suggestion (possibly `None`), or a raised exception with its message. -/
inductive FimResult where
  | ok (suggestion : Option Suggestion)
  | exn (msg : Str)
deriving DecidableEq, Repr

/-- The error message assembled for a non-200 status. -/
def fim_status_error_msg (status : Nat) (body : Option FimBody) : Str :=
  let base := "LLM API返回错误: ".data ++ Nat.toDigits 10 status
  match body with
  | none => base
  | some b => base ++ " - ".data ++ (b.errorMessage.getD "未知错误".data)

/-- Steps 4-5 of `call_fim_api` given the upstream outcome. A non-200
status raises inside the `try` block, so the catch-all handler re-wraps its
message; the transport failures are raised from their own handlers and
propagate unwrapped. -/
def call_fim_api_after (u : FimUpstream) : FimResult :=
  match u with
  | .timeout => .exn "LLM API调用超时".data
  | .connectionError => .exn "无法连接到LLM API".data
  | .requestError m => .exn ("LLM API调用失败: ".data ++ m)
  | .response status body =>
    if status ≠ 200 then
      .exn ("处理LLM API响应时发生错误: ".data ++ fim_status_error_msg status body)
    else
      match body with
      | none => .exn "LLM API返回的JSON格式无效".data
      | some b =>
        match b.choices with
        | none => .ok none
        | some [] => .ok none
        | some (choice :: _) =>
          match choice.text with
          | none => .ok none
          | some t => .ok (sanitize_suggestion t)

/-! ## The completion view (`views.py`, `completion`) -/

/-- Python `str.lower()` on the characters this service handles. -/
def toLowerStr (s : Str) : Str := s.map Char.toLower

/-- Python `pat in s` substring containment: `pat` occurs contiguously in
`s`. -/
def containsSub (pat : Str) : Str → Bool
  | [] => pat.isPrefixOf []
  | c :: rest => pat.isPrefixOf (c :: rest) || containsSub pat rest

/-- The error-code classification of the `completion` view's catch-all
handler: substring matching on the exception message. -/
def completion_error_code (msg : Str) : Str :=
  if containsSub "timeout".data (toLowerStr msg) then "API_TIMEOUT".data
  else if containsSub "connection".data (toLowerStr msg) then "API_CONNECTION_ERROR".data
  else if containsSub "LLM API".data msg then "API_ERROR".data
  else "INTERNAL_ERROR".data

/-- The JSON body of the `completion` view's response: either
`{success: true, suggestion: ...}` with HTTP 200, or
`{success: false, error_code, error}` with the given status and no
`suggestion` field. -/
inductive CompletionResponse where
  | ok (suggestion : Option Suggestion)
  | err (status : Nat) (code : Str) (msg : Str)
deriving DecidableEq, Repr

/-- The `completion` view after parameter validation, as a function of the
upstream outcome. -/
def completion_view (u : FimUpstream) : CompletionResponse :=
  match call_fim_api_after u with
  | .ok s => .ok s
  | .exn msg => .err 500 (completion_error_code msg) msg

/-! ## The prompt template builder (`prompt_templates.py`) -/

/-- A chat message dict `{role, content}` (roles are plain strings in the
source). -/
structure ChatMessage where
  role : Str
  content : Str
deriving DecidableEq, Repr

/-- The constant system message `CODE_COMPLETION_SYSTEM`. -/
def CODE_COMPLETION_SYSTEM : Str :=
  ("你是一个专业的代码补全助手。\n根据上下文代码，补全光标处的代码。\n只输出需要补全的代码，不要输出解释或其他内容。\n保持代码风格与上下文一致。").data

/-- `CODE_COMPLETION_USER_TEMPLATE.format(includes, functions, prompt, suffix)`. -/
def code_completion_user (includes functions prompt sfx : Str) : Str :=
  "上下文代码:\n```\n".data ++ includes ++ "\n```\n\n当前文件中的函数:\n".data ++ functions
    ++ "\n\n待补全代码:\n```\n".data ++ prompt ++ "▌".data ++ sfx
    ++ "\n```\n\n请补全光标处的代码:".data

/-- The includes slot: `'\n'.join(includes[:10]) if includes else "无"`. -/
def includesSlot (includes : List Str) : Str :=
  if includes ≠ [] then joinNL (includes.take 10) else "无".data

/-- The functions slot: initialised to the empty string, and only when
`other_functions` is non-empty replaced by the joined signature lines, or
by "无" when no entry yields a line. -/
def functionsSlot (other_functions : List FuncEntry) : Str :=
  if other_functions ≠ [] then
    let fl := (other_functions.take 5).filterMap fun f =>
      if getSig f = [] then none else some ("  ".data ++ getSig f)
    if fl ≠ [] then joinNL fl else "无".data
  else []

/-- `build_code_completion_prompt`: the two-message sequence of the chat
path. -/
def build_code_completion_prompt (prompt sfx : Str) (includes : List Str)
    (other_functions : List FuncEntry) : List ChatMessage :=
  [⟨"system".data, CODE_COMPLETION_SYSTEM⟩,
   ⟨"user".data,
    code_completion_user (includesSlot includes) (functionsSlot other_functions) prompt sfx⟩]

/-! ## Model catalog and provider adapters (`model_providers.py`) -/

/-- The four registered provider keys. -/
inductive ProviderKey where
  | deepseek
  | openai
  | anthropic
  | zhipu
deriving DecidableEq, Repr

/-- `SUPPORTED_MODELS[provider]["models"]`. -/
def supportedModels (p : ProviderKey) : List Str :=
  match p with
  | ProviderKey.deepseek => ["deepseek-chat".data, "deepseek-reasoner".data]
  | ProviderKey.openai =>
    ["gpt-4o".data, "gpt-4o-mini".data, "gpt-4-turbo".data, "gpt-4".data,
     "gpt-3.5-turbo".data, "o1".data, "o1-mini".data, "o1-preview".data]
  | ProviderKey.anthropic =>
    ["claude-3-5-sonnet-20241022".data, "claude-3-5-haiku-20241022".data,
     "claude-3-opus-20240229".data, "claude-3-sonnet-20240229".data,
     "claude-3-haiku-20240307".data]
  | ProviderKey.zhipu =>
    ["glm-4.7".data, "glm-4.6".data, "glm-4.5".data, "glm-4.5-air".data,
     "glm-4-plus".data, "glm-4-flash".data, "glm-4".data]

/-- `SUPPORTED_MODELS[provider]["default"]`. -/
def catalogDefaultModel (p : ProviderKey) : Str :=
  match p with
  | ProviderKey.deepseek => "deepseek-chat".data
  | ProviderKey.openai => "gpt-4o".data
  | ProviderKey.anthropic => "claude-3-5-sonnet-20241022".data
  | ProviderKey.zhipu => "glm-4-flash".data

/-- Provider-name lookup after `provider.lower()` (`SUPPORTED_MODELS` and
`_PROVIDER_MAP` use the same four keys). -/
def parseProviderKey (name : Str) : Option ProviderKey :=
  let n := toLowerStr name
  if n = "deepseek".data then some ProviderKey.deepseek
  else if n = "openai".data then some ProviderKey.openai
  else if n = "anthropic".data then some ProviderKey.anthropic
  else if n = "zhipu".data then some ProviderKey.zhipu
  else none

/-- `get_default_model`: raises `ValueError` on an unknown provider key. -/
def get_default_model (provider : Str) : Except Str Str :=
  match parseProviderKey provider with
  | none => Except.error ("不支持的模型提供者: ".data ++ toLowerStr provider)
  | some p => Except.ok (catalogDefaultModel p)

/-- `validate_model`: unknown provider or unsupported model raise
`ValueError` (message abbreviated: its content is never branched on). -/
def validate_model (provider model : Str) : Except Str Str :=
  match parseProviderKey provider with
  | none => Except.error ("不支持的模型提供者: ".data ++ toLowerStr provider)
  | some p =>
    if model ∈ supportedModels p then Except.ok model
    else Except.error ("Provider '".data ++ toLowerStr provider
        ++ "' 不支持模型 '".data ++ model ++ "'".data)

/-- The environment variable each provider's `get_api_key` reads. -/
def envVarOf (p : ProviderKey) : Str :=
  match p with
  | ProviderKey.deepseek => "DEEPSEEK_API_KEY".data
  | ProviderKey.openai => "OPENAI_API_KEY".data
  | ProviderKey.anthropic => "ANTHROPIC_API_KEY".data
  | ProviderKey.zhipu => "ZHIPU_API_KEY".data

/-- The process environment: a map from variable names to values. -/
abbrev Env := Str → Option Str

/-- `get_api_key`: `os.getenv(VAR)`; an unset or empty value raises
`ValueError(f"{VAR} 环境变量未设置")`. -/
def get_api_key (env : Env) (p : ProviderKey) : Except Str Str :=
  match env (envVarOf p) with
  | none => Except.error (envVarOf p ++ " 环境变量未设置".data)
  | some k =>
    if k = [] then Except.error (envVarOf p ++ " 环境变量未设置".data)
    else Except.ok k

/-- The per-class `DEFAULT_MODEL` attribute (used when `chat` receives no
model; note it differs from the catalog default for openai/anthropic). -/
def classDefaultModel (p : ProviderKey) : Str :=
  match p with
  | ProviderKey.deepseek => "deepseek-chat".data
  | ProviderKey.openai => "gpt-4".data
  | ProviderKey.anthropic => "claude-3-sonnet-20240229".data
  | ProviderKey.zhipu => "glm-4-flash".data

/-- The Anthropic request body: `messages` plus an optional top-level
`system` field. -/
structure AnthropicBody where
  model : Str
  max_tokens : Nat
  messages : List ChatMessage
  system : Option Str
deriving DecidableEq, Repr

/-- The message scan of `AnthropicProvider.chat`: one left-to-right pass
overwriting the `system_message` / `user_message` accumulators, so a later
message of the same role wins. -/
def anthropic_collect (msgs : List ChatMessage) : Str × Str :=
  msgs.foldl (fun acc m =>
    if m.role = "system".data then (m.content, acc.2)
    else if m.role = "user".data then (acc.1, m.content)
    else acc) ([], [])

/-- The request body built by `AnthropicProvider.chat`: a single-element
`messages` array with the collected user content, and a `system` field
only when the collected system content is non-empty. -/
def anthropic_build_body (messages : List ChatMessage) (model : Str) (maxTokens : Nat) :
    AnthropicBody :=
  let sm := (anthropic_collect messages).1
  let um := (anthropic_collect messages).2
  { model := model, max_tokens := maxTokens,
    messages := [⟨"user".data, um⟩],
    system := if sm ≠ [] then some sm else none }

/-- The OpenAI-compatible request body used by DeepSeek, OpenAI and Zhipu:
the canonical messages pass through unchanged. -/
structure OpenAIShapeBody where
  model : Str
  messages : List ChatMessage
  max_tokens : Nat
deriving DecidableEq, Repr

/-- A provider-specific request body. -/
inductive ChatRequestBody where
  | openaiShape (body : OpenAIShapeBody)
  | anthropicShape (body : AnthropicBody)
deriving DecidableEq, Repr

/-- `choices[0].message` of an OpenAI-shaped chat response. -/
structure ChatRespMessage where
  content : Option Str
  reasoning_content : Option Str
deriving DecidableEq, Repr

/-- A parsed chat response body; `choices` serves the OpenAI-shaped
providers and `content` the Anthropic shape, `errorMessage` is the nested
`error.message` read on non-200 statuses. -/
structure ChatRespBody where
  choices : Option (List ChatRespMessage)
  content : Option (List Str)
  errorMessage : Option Str
deriving DecidableEq, Repr

/-- The outcome of a provider's single HTTP POST. -/
inductive ChatUpstream where
  | response (status : Nat) (body : Option ChatRespBody)
  | timeout
  | connectionError
  | requestError (msg : Str)
deriving DecidableEq, Repr

/-- The network, as an oracle from the provider and the request body it
would post to the upstream outcome. -/
abbrev ChatOracle := ProviderKey → ChatRequestBody → ChatUpstream

/-- A raised Python exception: the chat view handles `ValueError`
separately from generic `Exception`. -/
inductive PyErr where
  | valueError (msg : Str)
  | exnError (msg : Str)
deriving DecidableEq, Repr

/-- The provider name used inside error messages. -/
def apiLabel (p : ProviderKey) : Str :=
  match p with
  | ProviderKey.deepseek => "DeepSeek API".data
  | ProviderKey.openai => "OpenAI API".data
  | ProviderKey.anthropic => "Anthropic API".data
  | ProviderKey.zhipu => "智谱AI API".data

/-- The connection-failure message (the Zhipu variant has no space after
the Chinese text). -/
def connErrorMsg (p : ProviderKey) : Str :=
  match p with
  | ProviderKey.zhipu => "无法连接到智谱AI API".data
  | _ => "无法连接到 ".data ++ apiLabel p

/-- Text extraction from a 200 body: OpenAI-shaped providers read
`choices[0].message.content` (a missing `content` key is a `KeyError`),
Zhipu falls back to `reasoning_content` when `content` is empty, Anthropic
reads `content[0].text`; empty/absent `choices` (or `content`) yields the
empty string. -/
def extract_chat_text (p : ProviderKey) (b : ChatRespBody) : Except PyErr Str :=
  match p with
  | ProviderKey.anthropic =>
    match b.content with
    | none => Except.ok []
    | some [] => Except.ok []
    | some (t :: _) => Except.ok t
  | ProviderKey.zhipu =>
    match b.choices with
    | none => Except.ok []
    | some [] => Except.ok []
    | some (m :: _) =>
      Except.ok (if m.content.getD [] = [] then m.reasoning_content.getD [] else m.content.getD [])
  | _ =>
    match b.choices with
    | none => Except.ok []
    | some [] => Except.ok []
    | some (m :: _) =>
      match m.content with
      | none => Except.error (PyErr.exnError "'content'".data)
      | some c => Except.ok c

/-- `<Provider>.chat`: resolve the model, resolve the API key (failing with
`ValueError` before any request is built or sent), build the
provider-specific body, post it, and classify the outcome. A 200 response
whose body is not parseable JSON is raised through the request-failure
handler of the HTTP library wrapper. -/
def provider_chat (p : ProviderKey) (env : Env) (oracle : ChatOracle)
    (messages : List ChatMessage) (model : Option Str) (maxTokens : Nat) :
    Except PyErr Str :=
  let m := match model with
    | none => classDefaultModel p
    | some s => if s = [] then classDefaultModel p else s
  match get_api_key env p with
  | Except.error e => Except.error (PyErr.valueError e)
  | Except.ok _ =>
    let body := match p with
      | ProviderKey.anthropic =>
        ChatRequestBody.anthropicShape (anthropic_build_body messages m maxTokens)
      | _ => ChatRequestBody.openaiShape ⟨m, messages, maxTokens⟩
    match oracle p body with
    | ChatUpstream.timeout => Except.error (PyErr.exnError (apiLabel p ++ " 调用超时".data))
    | ChatUpstream.connectionError => Except.error (PyErr.exnError (connErrorMsg p))
    | ChatUpstream.requestError msg =>
      Except.error (PyErr.exnError (apiLabel p ++ " 调用失败: ".data ++ msg))
    | ChatUpstream.response status rbody =>
      if status ≠ 200 then
        Except.error (PyErr.exnError (apiLabel p ++ " 返回错误: ".data
          ++ Nat.toDigits 10 status
          ++ (match rbody with
              | none => []
              | some b => " - ".data ++ b.errorMessage.getD "未知错误".data)))
      else
        match rbody with
        | none => Except.error (PyErr.exnError (apiLabel p ++ " 调用失败: Invalid JSON".data))
        | some b => extract_chat_text p b

/-! ## The chat service and view (`chat_service.py`, `views.py`) -/

/-- The `context` parameter of the chat path (type-valid by construction,
so `validate_context` always passes in this embedding). -/
structure ChatContext where
  prompt : Str
  suffix : Str
  includes : List Str
  other_functions : List FuncEntry

/-- The success payload of `call_chat_api`. -/
structure ChatOk where
  text : Str
  model : Str
  provider : Str
deriving DecidableEq, Repr

/-- `call_chat_api`: resolve the model (default when absent or empty),
validate it, build the two-message prompt, pick the provider and call it. -/
def call_chat_api (env : Env) (oracle : ChatOracle) (ctx : ChatContext)
    (model : Option Str) (maxTokens : Nat) (provider : Str) : Except PyErr ChatOk :=
  let mres : Except Str Str := match model with
    | none => get_default_model provider
    | some s => if s = [] then get_default_model provider else Except.ok s
  match mres with
  | Except.error e => Except.error (PyErr.valueError e)
  | Except.ok m =>
    match validate_model provider m with
    | Except.error e => Except.error (PyErr.valueError e)
    | Except.ok m =>
      let msgs := build_code_completion_prompt ctx.prompt ctx.suffix ctx.includes
        ctx.other_functions
      match parseProviderKey provider with
      | none => Except.error (PyErr.valueError ("不支持的模型提供者: ".data ++ provider))
      | some p =>
        match provider_chat p env oracle msgs (some m) maxTokens with
        | Except.error e => Except.error e
        | Except.ok text => Except.ok ⟨text, m, provider⟩

/-- The JSON body and status of the `chat` view's response. -/
inductive ChatViewResponse where
  | ok (text : Str) (model : Str) (provider : Str)
  | err (status : Nat) (code : Str) (msg : Str)
deriving DecidableEq, Repr

/-- The error-code classification of the `chat` view's catch-all handler
(it matches on "API", not "LLM API"). -/
def chat_error_code (msg : Str) : Str :=
  if containsSub "timeout".data (toLowerStr msg) then "API_TIMEOUT".data
  else if containsSub "connection".data (toLowerStr msg) then "API_CONNECTION_ERROR".data
  else if containsSub "API".data msg then "API_ERROR".data
  else "INTERNAL_ERROR".data

/-- The `chat` view after JSON parsing and the `context` presence check:
`ValueError` becomes HTTP 400 `INVALID_PARAMS`, any other exception HTTP
500 with a classified code. -/
def chat_view (env : Env) (oracle : ChatOracle) (ctx : ChatContext)
    (model : Option Str) (maxTokens : Nat) (provider : Str) : ChatViewResponse :=
  match call_chat_api env oracle ctx model maxTokens provider with
  | Except.ok r => ChatViewResponse.ok r.text r.model r.provider
  | Except.error (PyErr.valueError m) => ChatViewResponse.err 400 "INVALID_PARAMS".data m
  | Except.error (PyErr.exnError m) => ChatViewResponse.err 500 (chat_error_code m) m

/-- The content of the last message carrying the given role, or the empty
string when there is none (the spec-side reading of the adapter's scan). -/
def lastContentWithRole (r : Str) (msgs : List ChatMessage) : Str :=
  (((msgs.filter fun m => m.role == r).getLast?).map ChatMessage.content).getD []

/-! ## Theorems -/

/-! ## Basic length facts -/

theorem pyTake_length_le (n : Nat) (s : Str) : (pyTake n s).length ≤ n := by
  simp [pyTake]

theorem pyLastN_length_le (n : Nat) (s : Str) : (pyLastN n s).length ≤ n := by
  simp [pyLastN]
  omega

theorem enforceBudget_total_le (fp s t : Str) :
    ((enforceBudget fp s t).1.fullPrompt).length + ((enforceBudget fp s t).1.suffix).length
      ≤ MAX_TOTAL_LENGTH := by
  unfold enforceBudget
  split
  · dsimp only
    split
    · rename_i hgt hsuf
      simp only [pyTake, List.length_take, MAX_TOTAL_LENGTH] at *
      omega
    · split
      · simp only [pyTake, pyLastN, List.length_take, List.length_drop, MAX_TOTAL_LENGTH] at *
        omega
      · rename_i hgt hsuf hav
        simp only [MAX_TOTAL_LENGTH] at hav
        omega
  · simp only [MAX_TOTAL_LENGTH] at *
    omega

theorem call_fim_allocate_total_le (prompt sfx : Str) (includes : List Str)
    (other_functions : List FuncEntry) :
    ((call_fim_allocate prompt sfx includes other_functions).1.fullPrompt).length
      + ((call_fim_allocate prompt sfx includes other_functions).1.suffix).length
      ≤ MAX_TOTAL_LENGTH := by
  unfold call_fim_allocate
  exact enforceBudget_total_le _ _ _

/-- C1: for every type-valid input, the allocator's output satisfies
`len(fullPrompt) + len(suffix) ≤ 8000`. -/
theorem C1_total_length_invariant (prompt sfx : Str) (includes : List Str)
    (other_functions : List FuncEntry) :
    ((call_fim_allocate prompt sfx includes other_functions).1.fullPrompt).length
      + ((call_fim_allocate prompt sfx includes other_functions).1.suffix).length
      ≤ MAX_TOTAL_LENGTH :=
  call_fim_allocate_total_le prompt sfx includes other_functions

theorem enforceBudget_ne_fallback (fp s t : Str) :
    (enforceBudget fp s t).2 ≠ Branch.fallback := by
  unfold enforceBudget
  split
  · dsimp only
    split
    · simp
    · split
      · simp
      · rename_i hav
        exact absurd (by simp [MAX_TOTAL_LENGTH] : ((MAX_TOTAL_LENGTH : Int) - 200) > 0) hav
  · simp

/-- C10: the extreme fallback arm of the budget enforcement (keep the last
500 characters of the trimmed prompt and the first 500 of the suffix) is
never taken: `MAX_TOTAL_LENGTH - 200 = 7800 > 0` always holds. -/
theorem C10_fallback_branch_unreachable (prompt sfx : Str) (includes : List Str)
    (other_functions : List FuncEntry) :
    (call_fim_allocate prompt sfx includes other_functions).2 ≠ Branch.fallback := by
  unfold call_fim_allocate
  exact enforceBudget_ne_fallback _ _ _

theorem promptParts_nil_nil (t : Str) : promptParts [] [] t = [t] := by
  simp [promptParts]

theorem call_fim_allocate_nil_nil (p s : Str) :
    call_fim_allocate p s [] [] =
      enforceBudget (if p.length > MAX_PROMPT_LENGTH then pyTake MAX_PROMPT_LENGTH p else p) s
        (if p.length > MAX_PROMPT_LENGTH then pyTake MAX_PROMPT_LENGTH p else p) := by
  unfold call_fim_allocate
  simp [assignNames, promptParts_nil_nil, joinNL]

/-- C9: for a 9000-character prompt with empty suffix and no
includes/functions, the resulting `fullPrompt` has length at most 7800 and
equals the last `N` characters of the head-truncated 4000-character prompt
for some `N` (here `N = 4000`). -/
theorem C9_long_prompt_scenario (prompt : Str) (h : prompt.length = 9000) :
    ((call_fim_allocate prompt [] [] []).1.fullPrompt).length ≤ 7800 ∧
    ∃ N, (call_fim_allocate prompt [] [] []).1.fullPrompt
        = pyLastN N (pyTake MAX_PROMPT_LENGTH prompt) := by
  have hp : prompt.length > MAX_PROMPT_LENGTH := by simp [MAX_PROMPT_LENGTH, h]
  have hlen : (pyTake MAX_PROMPT_LENGTH prompt).length = 4000 := by
    simp [pyTake, MAX_PROMPT_LENGTH, h]
  have e : call_fim_allocate prompt [] [] []
      = (⟨pyTake MAX_PROMPT_LENGTH prompt, []⟩, Branch.within) := by
    rw [call_fim_allocate_nil_nil, if_pos hp]
    unfold enforceBudget
    rw [if_neg (by simp [hlen, MAX_TOTAL_LENGTH])]
  rw [e]
  exact ⟨by simp [hlen], 4000, by simp [pyLastN, hlen]⟩

theorem C9_long_prompt_scenario_witness :
    (List.replicate 9000 'a' : Str).length = 9000 ∧
    (((call_fim_allocate (List.replicate 9000 'a') [] [] []).1.fullPrompt).length ≤ 7800 ∧
     ∃ N, (call_fim_allocate (List.replicate 9000 'a') [] [] []).1.fullPrompt
        = pyLastN N (pyTake MAX_PROMPT_LENGTH (List.replicate 9000 'a'))) :=
  ⟨by simp only [List.length_replicate],
   C9_long_prompt_scenario (List.replicate 9000 'a') (by simp only [List.length_replicate])⟩

/-- C5 (amended): the allocator is idempotent on its own output provided
that output's `fullPrompt` is within the 4000-character prompt cap; a
produced `fullPrompt` longer than `MAX_PROMPT_LENGTH` is head-truncated
again on a second run (see the counterexample). -/
theorem C5_idempotent_when_within_prompt_cap (p s : Str) (incs : List Str)
    (funcs : List FuncEntry)
    (h : ((call_fim_allocate p s incs funcs).1.fullPrompt).length ≤ MAX_PROMPT_LENGTH) :
    call_fim_allocate (call_fim_allocate p s incs funcs).1.fullPrompt
        (call_fim_allocate p s incs funcs).1.suffix [] []
      = ((call_fim_allocate p s incs funcs).1, Branch.within) := by
  have htot := call_fim_allocate_total_le p s incs funcs
  rw [call_fim_allocate_nil_nil, if_neg (by omega)]
  unfold enforceBudget
  rw [if_neg (by omega)]

theorem C5_idempotent_witness :
    ((((call_fim_allocate ['a', 'b', 'c'] [] [] []).1.fullPrompt).length ≤ MAX_PROMPT_LENGTH) ∧
     call_fim_allocate (call_fim_allocate ['a', 'b', 'c'] [] [] []).1.fullPrompt
        (call_fim_allocate ['a', 'b', 'c'] [] [] []).1.suffix [] []
      = ((call_fim_allocate ['a', 'b', 'c'] [] [] []).1, Branch.within)) :=
  ⟨by decide, C5_idempotent_when_within_prompt_cap ['a', 'b', 'c'] [] [] [] (by decide)⟩

theorem pyStrip_replicate (n : Nat) (c : Char) (hc : pyIsSpace c = false) :
    pyStrip (List.replicate n c) = List.replicate n c := by
  have hd : List.dropWhile pyIsSpace (List.replicate n c) = List.replicate n c := by
    cases n with
    | zero => simp
    | succ m => simp [List.replicate_succ, List.dropWhile_cons, hc]
  simp [pyStrip, hd, List.reverse_replicate]

theorem promptParts_single_include (inc t : Str) (h1 : pyStrip inc = inc) (h2 : inc ≠ []) :
    promptParts [inc] [] t = [inc, [], SEPARATOR, [], t] := by
  simp [promptParts, cleanedIncludes, MAX_INCLUDES, h1, h2]

theorem joinNL_length_five (a b c d e : Str) :
    (joinNL [a, b, c, d, e]).length
      = a.length + b.length + c.length + d.length + e.length + 4 := by
  simp [joinNL]
  omega

theorem call_fim_allocate_single_include (inc p s : Str) (h1 : pyStrip inc = inc)
    (h2 : inc ≠ []) (hp : p.length ≤ MAX_PROMPT_LENGTH) :
    call_fim_allocate p s [inc] [] =
      enforceBudget (joinNL [inc, [], SEPARATOR, [], p]) s p := by
  unfold call_fim_allocate
  rw [if_neg (by omega)]
  simp [assignNames, promptParts_single_include inc p h1 h2]

theorem enforceBudget_shrinkPrompt_eq (fp s t : Str)
    (h : fp.length + s.length > MAX_TOTAL_LENGTH)
    (h2 : (MAX_TOTAL_LENGTH : Int) - fp.length ≤ 100) :
    enforceBudget fp s t = (⟨pyLastN 7800 fp, pyTake 200 s⟩, Branch.shrinkPrompt) := by
  unfold enforceBudget
  rw [if_pos h]
  dsimp only
  rw [if_neg (by omega), if_pos (by norm_num [MAX_TOTAL_LENGTH])]
  norm_num [MAX_TOTAL_LENGTH]
  rfl

theorem enforceBudget_within_eq (fp s t : Str)
    (h : fp.length + s.length ≤ MAX_TOTAL_LENGTH) :
    enforceBudget fp s t = (⟨fp, s⟩, Branch.within) := by
  unfold enforceBudget
  rw [if_neg (by omega)]

/-- C5 counterexample: with a 5000-character include and a 3000-character
prompt, the allocator's output has a 7800-character `fullPrompt`; re-running
the allocator on that output head-truncates it to 4000 characters, so the
output changes. -/
theorem C5_counterexample :
    (call_fim_allocate
        (call_fim_allocate (List.replicate 3000 'b') [] [List.replicate 5000 'a'] []).1.fullPrompt
        (call_fim_allocate (List.replicate 3000 'b') [] [List.replicate 5000 'a'] []).1.suffix
        [] []).1
      ≠ (call_fim_allocate (List.replicate 3000 'b') [] [List.replicate 5000 'a'] []).1 := by
  have hsep : SEPARATOR.length = 10 := by decide
  have hinc2 : (List.replicate 5000 'a' : Str) ≠ [] := by
    simp only [ne_eq, ← List.length_eq_zero, List.length_replicate]
    omega
  have hfl : (joinNL [List.replicate 5000 'a', [], SEPARATOR, [],
      (List.replicate 3000 'b' : Str)]).length = 8014 := by
    rw [joinNL_length_five]
    simp only [List.length_replicate, List.length_nil, hsep]
  have e1 : call_fim_allocate (List.replicate 3000 'b') [] [List.replicate 5000 'a'] []
      = (⟨pyLastN 7800 (joinNL [List.replicate 5000 'a', [], SEPARATOR, [],
            List.replicate 3000 'b']), []⟩, Branch.shrinkPrompt) := by
    rw [call_fim_allocate_single_include _ _ _ (pyStrip_replicate 5000 'a' (by decide)) hinc2
        (by simp only [List.length_replicate, MAX_PROMPT_LENGTH]; omega)]
    rw [enforceBudget_shrinkPrompt_eq _ _ _
        (by rw [List.length_nil, hfl]; simp [MAX_TOTAL_LENGTH])
        (by rw [hfl]; simp [MAX_TOTAL_LENGTH])]
    rfl
  have hbp1len : ((call_fim_allocate (List.replicate 3000 'b') []
      [List.replicate 5000 'a'] []).1.fullPrompt).length = 7800 := by
    rw [e1]
    simp only [pyLastN, List.length_drop, hfl]
  have hbp1sfx : (call_fim_allocate (List.replicate 3000 'b') []
      [List.replicate 5000 'a'] []).1.suffix = [] := by
    rw [e1]
  intro heq
  have h2 : ((call_fim_allocate
      (call_fim_allocate (List.replicate 3000 'b') [] [List.replicate 5000 'a'] []).1.fullPrompt
      (call_fim_allocate (List.replicate 3000 'b') [] [List.replicate 5000 'a'] []).1.suffix
      [] []).1.fullPrompt).length = 4000 := by
    rw [hbp1sfx, call_fim_allocate_nil_nil,
      if_pos (by rw [hbp1len]; simp only [MAX_PROMPT_LENGTH]; omega)]
    rw [enforceBudget_within_eq _ _ _
        (by
          simp only [pyTake, List.length_take, List.length_nil, hbp1len,
            MAX_TOTAL_LENGTH, MAX_PROMPT_LENGTH]
          omega)]
    simp only [pyTake, List.length_take, hbp1len, MAX_PROMPT_LENGTH]
    omega
  rw [heq, hbp1len] at h2
  exact absurd h2 (by omega)

/-- C7 counterexample: the validation step of the allocator mutates its
`other_functions` argument in place: an entry missing a `name` key gains
one, so the argument does not come back unchanged. -/
theorem C7_counterexample :
    assignNames [FuncEntry.mk none none] ≠ [FuncEntry.mk none none] := by
  decide

/-- C2: on an upstream timeout the completion endpoint does return HTTP 500
with `success: false` and no suggestion, but the error code is
`API_ERROR`, not `API_TIMEOUT`: the raised message "LLM API调用超时"
contains no "timeout" substring, so the timeout branch of the classifier
never fires and the "LLM API" branch wins. -/
theorem C2_timeout_classified_as_api_error :
    completion_view FimUpstream.timeout
      = CompletionResponse.err 500 "API_ERROR".data "LLM API调用超时".data := by
  decide

theorem map_replaceNewline_no_newline (l : Str) :
    '\n' ∉ l.map (fun c => if c = '\n' then ' ' else c) := by
  intro hmem
  rcases List.mem_map.mp hmem with ⟨x, hx, hfx⟩
  by_cases hx' : x = '\n'
  · rw [if_pos hx'] at hfx
    exact absurd hfx (by decide)
  · rw [if_neg hx'] at hfx
    exact hx' hfx

theorem label_no_newline (l : Str) :
    '\n' ∉ (l.map (fun c => if c = '\n' then ' ' else c) ++ "...".data) := by
  intro hmem
  rcases List.mem_append.mp hmem with hm | hm
  · exact map_replaceNewline_no_newline l hm
  · exact absurd hm (by decide)

theorem deriveLabel_spec (t : Str) :
    (deriveLabel t).length ≤ 33 ∧
    (t.length > 30 →
      deriveLabel t = (pyTake 30 t).map (fun c => if c = '\n' then ' ' else c)
          ++ "...".data ∧ '\n' ∉ deriveLabel t) ∧
    (t.length ≤ 30 → deriveLabel t = t) := by
  unfold deriveLabel
  split
  · rename_i hgt
    refine ⟨?_, fun _ => ⟨rfl, label_no_newline _⟩, fun hle => absurd hgt (by omega)⟩
    simp only [List.length_append, List.length_map, pyTake, List.length_take,
      List.length_cons, List.length_nil]
    omega
  · rename_i hle
    exact ⟨by omega, fun hgt => absurd hgt hle, fun _ => rfl⟩

theorem sanitize_label_shape (raw : Str) (sug : Suggestion)
    (h : sanitize_suggestion raw = some sug) :
    sug.label.length ≤ 33 ∧
    (sug.text.length > 30 →
      sug.label = (pyTake 30 sug.text).map (fun c => if c = '\n' then ' ' else c)
          ++ "...".data ∧ '\n' ∉ sug.label) ∧
    (sug.text.length ≤ 30 → sug.label = sug.text) := by
  unfold sanitize_suggestion at h
  dsimp only at h
  split at h
  · exact absurd h (by simp)
  · rw [Option.some_inj] at h
    subst h
    have hh := deriveLabel_spec
      (if (cleanFences raw).length > 500 then pyTake 500 (cleanFences raw) else cleanFences raw)
    dsimp only
    exact hh

/-- C6 (amended): every suggestion returned by the fill-in-middle path has
a label of at most 33 characters; when `text` is longer than 30 characters
the label is the first 30 characters with newlines replaced by spaces plus
an ellipsis marker and is single-line, but otherwise the label is `text`
itself, which may contain newlines (see the counterexample). -/
theorem C6_label_bounded_and_shaped (u : FimUpstream) (sug : Suggestion)
    (h : call_fim_api_after u = FimResult.ok (some sug)) :
    sug.label.length ≤ 33 ∧
    (sug.text.length > 30 →
      sug.label = (pyTake 30 sug.text).map (fun c => if c = '\n' then ' ' else c)
          ++ "...".data ∧ '\n' ∉ sug.label) ∧
    (sug.text.length ≤ 30 → sug.label = sug.text) := by
  rcases u with ⟨status, body⟩ | _ | _ | m
  · rcases body with _ | ⟨co, em⟩
    · simp only [call_fim_api_after] at h
      split at h
      · exact absurd h (by simp)
      · exact absurd h (by simp)
    · rcases co with _ | ⟨_ | ⟨⟨ct⟩, rest⟩⟩
      · simp only [call_fim_api_after] at h
        split at h
        · exact absurd h (by simp)
        · exact absurd h (by simp)
      · simp only [call_fim_api_after] at h
        split at h
        · exact absurd h (by simp)
        · exact absurd h (by simp)
      · rcases ct with _ | t
        · simp only [call_fim_api_after] at h
          split at h
          · exact absurd h (by simp)
          · exact absurd h (by simp)
        · simp only [call_fim_api_after] at h
          split at h
          · exact absurd h (by simp)
          · rw [FimResult.ok.injEq] at h
            exact sanitize_label_shape t sug h
  · exact absurd (by simpa only [call_fim_api_after] using h) (by simp)
  · exact absurd (by simpa only [call_fim_api_after] using h) (by simp)
  · exact absurd (by simpa only [call_fim_api_after] using h) (by simp)

theorem C6_label_witness :
    call_fim_api_after (FimUpstream.response 200
        (some ⟨some [⟨some ['h', 'i']⟩], none⟩))
      = FimResult.ok (some ⟨['h', 'i'], ['h', 'i']⟩) ∧
    ((Suggestion.mk ['h', 'i'] ['h', 'i']).label.length ≤ 33 ∧
     ((Suggestion.mk ['h', 'i'] ['h', 'i']).text.length > 30 →
       (Suggestion.mk ['h', 'i'] ['h', 'i']).label
          = (pyTake 30 (Suggestion.mk ['h', 'i'] ['h', 'i']).text).map
              (fun c => if c = '\n' then ' ' else c) ++ "...".data ∧
       '\n' ∉ (Suggestion.mk ['h', 'i'] ['h', 'i']).label) ∧
     ((Suggestion.mk ['h', 'i'] ['h', 'i']).text.length ≤ 30 →
       (Suggestion.mk ['h', 'i'] ['h', 'i']).label = (Suggestion.mk ['h', 'i'] ['h', 'i']).text)) :=
  ⟨by decide,
   C6_label_bounded_and_shaped
     (FimUpstream.response 200 (some ⟨some [⟨some ['h', 'i']⟩], none⟩))
     (Suggestion.mk ['h', 'i'] ['h', 'i']) (by decide)⟩

/-- C6 counterexample: the raw completion text `"a\nb"` survives
sanitisation unchanged (it is 3 characters, under the 30-character cut),
so the returned label is `"a\nb"` itself and contains a newline — the
label is not always single-line. -/
theorem C6_counterexample :
    call_fim_api_after (FimUpstream.response 200
        (some ⟨some [⟨some ['a', '\n', 'b']⟩], none⟩))
      = FimResult.ok (some ⟨['a', '\n', 'b'], ['a', '\n', 'b']⟩) ∧
    '\n' ∈ (['a', '\n', 'b'] : Str) := by
  constructor
  · decide
  · decide

/-- C7 (amended): the allocator is deterministic and leaves `prompt`,
`suffix` and `includes` unchanged, but it mutates `other_functions` in
place exactly as follows: an entry that has a `name` key is unchanged, and
an entry missing one gains `name = function_<index>` with no other field
touched. -/
theorem C7_mutation_characterised (funcs : List FuncEntry) :
    (assignNames funcs).length = funcs.length ∧
    ∀ i : Nat, (assignNames funcs)[i]? =
      (funcs[i]?).map fun f =>
        match f.name with
        | some _ => f
        | none => { f with name := some (functionName i) } := by
  constructor
  · simp [assignNames]
  · intro i
    unfold assignNames
    rw [List.getElem?_map, List.getElem?_enum]
    cases funcs[i]? with
    | none => rfl
    | some f =>
      cases hf : f.name with
      | none => simp [hf]
      | some n => simp [hf]

/-- C8 counterexample: with empty `otherFunctions` the rendered user
message carries an empty functions slot, not the "无" placeholder: it
differs from the message rendered with "无" in that slot (while the
includes slot does read "无" here, since includes is empty too). -/
theorem C8_counterexample :
    functionsSlot [] = [] ∧
    (build_code_completion_prompt ['p'] ['s'] [] []).map ChatMessage.content
      = [CODE_COMPLETION_SYSTEM, code_completion_user "无".data [] ['p'] ['s']] ∧
    code_completion_user "无".data [] ['p'] ['s']
      ≠ code_completion_user "无".data "无".data ['p'] ['s'] := by
  refine ⟨rfl, rfl, ?_⟩
  decide

/-- C8 (amended): when `otherFunctions` is empty the functions slot of the
rendered user message is the empty string — unlike the includes slot,
which is "无" when `includes` is empty; "无" appears in the functions slot
only when `otherFunctions` is non-empty yet yields no signature lines. -/
theorem C8_empty_functions_renders_empty_slot (prompt sfx : Str) (includes : List Str) :
    build_code_completion_prompt prompt sfx includes []
      = [⟨"system".data, CODE_COMPLETION_SYSTEM⟩,
         ⟨"user".data, code_completion_user (includesSlot includes) [] prompt sfx⟩]
      ∧ includesSlot [] = "无".data :=
  ⟨rfl, rfl⟩

/-- C4 counterexample: with two system and two user messages the Anthropic
body keeps the last of each — `system` is "b", not the first "a", and
`messages` is `[user "y"]`, not `[user "x"]`. -/
theorem C4_counterexample :
    (anthropic_build_body
        [⟨"system".data, ['a']⟩, ⟨"system".data, ['b']⟩,
         ⟨"user".data, ['x']⟩, ⟨"user".data, ['y']⟩] ['m'] 10).system ≠ some ['a'] ∧
    (anthropic_build_body
        [⟨"system".data, ['a']⟩, ⟨"system".data, ['b']⟩,
         ⟨"user".data, ['x']⟩, ⟨"user".data, ['y']⟩] ['m'] 10).messages
      ≠ [⟨"user".data, ['x']⟩] := by
  decide

theorem anthropic_collect_append (l : List ChatMessage) (m : ChatMessage) :
    anthropic_collect (l ++ [m])
      = (if m.role = "system".data then (m.content, (anthropic_collect l).2)
         else if m.role = "user".data then ((anthropic_collect l).1, m.content)
         else anthropic_collect l) := by
  simp [anthropic_collect, List.foldl_append]

theorem lastContentWithRole_append (r : Str) (l : List ChatMessage) (m : ChatMessage) :
    lastContentWithRole r (l ++ [m])
      = if (m.role == r) = true then m.content else lastContentWithRole r l := by
  unfold lastContentWithRole
  rw [List.filter_append]
  by_cases h : (m.role == r) = true
  · rw [if_pos h]
    simp [List.filter_cons, h, List.getLast?_append_cons]
  · have hf : (m.role == r) = false := by simpa using h
    rw [if_neg h]
    simp [List.filter_cons, hf]

theorem anthropic_collect_eq (msgs : List ChatMessage) :
    anthropic_collect msgs
      = (lastContentWithRole "system".data msgs, lastContentWithRole "user".data msgs) := by
  induction msgs using List.reverseRecOn with
  | nil => rfl
  | append_singleton l m ih =>
    rw [anthropic_collect_append, ih, lastContentWithRole_append, lastContentWithRole_append]
    by_cases h1 : m.role = "system".data
    · have hb1 : (m.role == "system".data) = true := by simp [h1]
      have hb2 : (m.role == "user".data) = false := by
        simp only [h1]
        decide
      rw [if_pos h1, if_pos hb1, if_neg (by simp [hb2])]
    · by_cases h2 : m.role = "user".data
      · have hb1 : (m.role == "system".data) = false := by
          simp only [h2]
          decide
        have hb2 : (m.role == "user".data) = true := by simp [h2]
        rw [if_neg h1, if_pos h2, if_neg (by simp [hb1]), if_pos hb2]
      · have hb1 : (m.role == "system".data) = false := by simp [h1]
        have hb2 : (m.role == "user".data) = false := by simp [h2]
        rw [if_neg h1, if_neg h2, if_neg (by simp [hb1]), if_neg (by simp [hb2])]

/-- C4 (amended): for every message sequence the Anthropic adapter's body
has a single-element `messages` array carrying the content of the LAST
message with role `user` (empty when there is none), and a top-level
`system` field carrying the content of the LAST message with role `system`
(omitted when that content is empty or no such message exists). -/
theorem C4_anthropic_keeps_last_system_and_user (msgs : List ChatMessage)
    (model : Str) (mt : Nat) :
    (anthropic_build_body msgs model mt).messages
        = [⟨"user".data, lastContentWithRole "user".data msgs⟩] ∧
    (anthropic_build_body msgs model mt).system
        = (if lastContentWithRole "system".data msgs = [] then none
           else some (lastContentWithRole "system".data msgs)) := by
  unfold anthropic_build_body
  rw [anthropic_collect_eq]
  refine ⟨rfl, ?_⟩
  by_cases h : lastContentWithRole "system".data msgs = []
  · rw [if_pos h]
    simp [h]
  · rw [if_neg h]
    simp [h]

/-- C3 counterexample: with no environment variables set, a chat request
selecting provider "zhipu" is answered with HTTP 400 and error code
`INVALID_PARAMS` — the missing credential is reported as a client error,
not as a 500 with an internal code as the claim states. -/
theorem C3_counterexample :
    chat_view (fun _ => none) (fun _ _ => ChatUpstream.timeout)
        ⟨[], [], [], []⟩ none 1000 "zhipu".data
      = ChatViewResponse.err 400 "INVALID_PARAMS".data
          ("ZHIPU_API_KEY 环境变量未设置").data := by
  decide

theorem catalogDefaultModel_supported (p : ProviderKey) :
    catalogDefaultModel p ∈ supportedModels p := by
  cases p <;> decide

/-- C3 (amended): when the selected provider's API key is absent from (or
empty in) the environment, the chat endpoint fails before any network call
is attempted — the response is the same for every network oracle — but the
failure surfaces as HTTP 400 with the client-error code `INVALID_PARAMS`
(the providers raise `ValueError`, which the view maps to 400), not as an
HTTP 500 with an internal error code. Stated for the default model
selection, which every registered provider accepts. -/
theorem C3_missing_key_is_client_error_before_network (env : Env) (oracle : ChatOracle)
    (ctx : ChatContext) (mt : Nat) (provider : Str) (p : ProviderKey)
    (hp : parseProviderKey provider = some p)
    (hk : env (envVarOf p) = none ∨ env (envVarOf p) = some []) :
    chat_view env oracle ctx none mt provider
      = ChatViewResponse.err 400 "INVALID_PARAMS".data
          (envVarOf p ++ " 环境变量未设置".data) := by
  unfold chat_view call_chat_api get_default_model validate_model provider_chat get_api_key
  rw [hp]
  dsimp only
  rw [if_pos (catalogDefaultModel_supported p)]
  dsimp only
  rcases hk with hk | hk
  · rw [hk]
  · rw [hk]
    dsimp only
    rw [if_pos rfl]

theorem C3_missing_key_witness :
    parseProviderKey "zhipu".data = some ProviderKey.zhipu ∧
    ((fun _ => none : Env) (envVarOf ProviderKey.zhipu) = none ∨
     (fun _ => none : Env) (envVarOf ProviderKey.zhipu) = some []) ∧
    chat_view (fun _ => none) (fun _ _ => ChatUpstream.connectionError)
        ⟨['a'], ['b'], [], []⟩ none 5 "zhipu".data
      = ChatViewResponse.err 400 "INVALID_PARAMS".data
          (envVarOf ProviderKey.zhipu ++ " 环境变量未设置".data) :=
  ⟨rfl, Or.inl rfl,
   C3_missing_key_is_client_error_before_network (fun _ => none)
     (fun _ _ => ChatUpstream.connectionError) ⟨['a'], ['b'], [], []⟩ 5 "zhipu".data
     ProviderKey.zhipu rfl (Or.inl rfl)⟩
